import Mathlib

/-!
Shallow embedding of the VGG16 cat/dog classifier Streamlit app
(files: app.py, utils/model_utils.py, utils/image_utils.py,
components/ui_components.py, components/sidebar.py).

Pixel values and probabilities are modelled as exact rationals; Python
`None`-returning fallible functions are modelled with `Option`, and the
raising/catching structure of `try`/`except` blocks with `Except`.
-/

namespace VGG16App

/-- The two class labels, from `CLASS_NAMES = ['Cat', 'Dog']` in
`utils/model_utils.py`. -/
inductive Label where
  | Cat
  | Dog
deriving DecidableEq, Repr

/-- The result dict built by `predict_image` in `utils/model_utils.py`
(keys `predicted_class`, `confidence`, `cat_probability`,
`dog_probability`). -/
structure PredictionResult where
  predicted_class : Label
  confidence : ℚ
  cat_probability : ℚ
  dog_probability : ℚ
deriving DecidableEq, Repr

/-- The `all_probabilities` sub-dict of the result
(`{'Cat': cat_prob, 'Dog': dog_prob}`). -/
def PredictionResult.all_probabilities (r : PredictionResult) : Label → ℚ
  | .Cat => r.cat_probability
  | .Dog => r.dog_probability

/-- An n-dimensional numeric array (numpy `ndarray`): a shape together with
the entry at each multi-index.  Entries at out-of-range indices are
unspecified junk (`0`). -/
structure NDTensor where
  shape : List ℕ
  data : List ℕ → ℚ

/-- A loaded Keras model, abstracted to its forward pass: `predict` returns
the first row `predictions[0]` of the model output as a list of scores. -/
structure Model where
  predict : NDTensor → List ℚ

/-- The tail of `predict_image` (`utils/model_utils.py` lines 65-91): turn
the raw output row `predictions[0]` into the result dict.
`row = []` models the `IndexError` from `predictions[0][0]`, which the
surrounding `except` clause turns into `None`. -/
def interpretRow (row : List ℚ) : Option PredictionResult :=
  match row with
  | [] => none
  | [p] =>
    -- binary classification with sigmoid: cat_prob = 1 - prob, dog_prob = prob
    let cat_prob := 1 - p
    let dog_prob := p
    some { predicted_class := if dog_prob > cat_prob then .Dog else .Cat
           confidence := max cat_prob dog_prob
           cat_probability := cat_prob
           dog_probability := dog_prob }
  | p0 :: p1 :: _ =>
    -- multi-class with softmax: cat_prob = predictions[0][0], dog_prob = predictions[0][1]
    let cat_prob := p0
    let dog_prob := p1
    some { predicted_class := if dog_prob > cat_prob then .Dog else .Cat
           confidence := max cat_prob dog_prob
           cat_probability := cat_prob
           dog_probability := dog_prob }

/-- `predict_image(model, processed_image)` from `utils/model_utils.py`:
returns `None` when `model is None`, otherwise interprets the forward
pass on the processed image. -/
def predict_image (model : Option Model) (processed_image : NDTensor) :
    Option PredictionResult :=
  match model with
  | none => none
  | some m => interpretRow (m.predict processed_image)

/-! ## Image utilities (`utils/image_utils.py`) -/

/-- A Streamlit uploaded file object, reduced to the two attributes the
code reads: `.name` and `.size` (bytes). -/
structure UploadedFile where
  name : String
  size : ℕ
deriving DecidableEq, Repr

/-- `IMAGE_SIZE = (224, 224)` from `utils/image_utils.py`. -/
def IMAGE_SIZE : ℕ × ℕ := (224, 224)

/-- `ALLOWED_EXTENSIONS = ['jpg', 'jpeg', 'png', 'bmp']`. -/
def ALLOWED_EXTENSIONS : List String := ["jpg", "jpeg", "png", "bmp"]

/-- The size cap `10 * 1024 * 1024` used in `validate_image`. -/
def MAX_FILE_SIZE : ℕ := 10 * 1024 * 1024

/-- Python `str.split('.')` on the character list: splits at every dot,
keeping empty components, so `"a.b.".split('.') = ['a','b','']` and
`"file".split('.') = ['file']`. -/
def splitOnDot : List Char → List (List Char)
  | [] => [[]]
  | c :: cs =>
    let rest := splitOnDot cs
    if c = '.' then [] :: rest
    else
      match rest with
      | r :: rs => (c :: r) :: rs
      | [] => [[c]]

/-- `uploaded_file.name.split('.')[-1].lower()` from `validate_image`:
the last dot-separated component of the filename, lower-cased. -/
def fileExtension (name : String) : String :=
  match (splitOnDot name.data).reverse with
  | last :: _ => ⟨last.map Char.toLower⟩
  | [] => ""

/-- The error message kind emitted by `validate_image` via `st.error`. -/
inductive ValidationError where
  | unsupportedFormat
  | fileTooLarge
deriving DecidableEq, Repr

/-- `validate_image(uploaded_file)` from `utils/image_utils.py`,
instrumented with the error message it reports: returns the boolean
result of the source function together with the `st.error` kind shown
(if any).  `none` input models `uploaded_file is None`. -/
def validate_image_r (uploaded_file : Option UploadedFile) :
    Bool × Option ValidationError :=
  match uploaded_file with
  | none => (false, none)
  | some f =>
    if fileExtension f.name ∉ ALLOWED_EXTENSIONS then
      (false, some .unsupportedFormat)
    else if f.size > MAX_FILE_SIZE then
      (false, some .fileTooLarge)
    else
      (true, none)

/-- `validate_image` proper: the boolean returned to the caller. -/
def validate_image (uploaded_file : Option UploadedFile) : Bool :=
  (validate_image_r uploaded_file).1

/-- A decoded PIL image: color mode string, dimensions, and the RGB pixel
grid (`px x y c` is the value of channel `c` at column `x`, row `y`;
channels `0/1/2` are `R/G/B`).  For non-RGB modes `px` carries the RGB
rendering that `convert('RGB')` produces; the decoder itself
(`Image.open`) is external to the repository and stays opaque. -/
structure PILImg where
  mode : String
  width : ℕ
  height : ℕ
  px : ℕ → ℕ → Fin 3 → ℚ

/-- `image.convert('RGB')`: the result is a 3-channel RGB image.  The
channel-synthesis arithmetic for exotic modes lives inside PIL; in this
model the RGB rendering is already the `px` field, so converting just
fixes the mode tag. -/
def PILImg.convertRGB (img : PILImg) : PILImg :=
  { img with mode := "RGB" }

/-- A resampling kernel: given the source image and the target size, the
pixel grid of the resized image.  PIL's `Image.resize` filter (bicubic by
default) is external to the repository, so the kernel is a parameter; the
claims depend only on the output dimensions. -/
def ResampleKernel : Type :=
  PILImg → ℕ × ℕ → ℕ → ℕ → Fin 3 → ℚ

/-- `image.resize(size)` from PIL: output dimensions are exactly `size`,
pixel content given by the resampling kernel. -/
def PILImg.resizeWith (resample : ResampleKernel) (img : PILImg)
    (size : ℕ × ℕ) : PILImg :=
  { mode := img.mode
    width := size.1
    height := size.2
    px := resample img size }

/-- `np.array(image)` on an RGB PIL image: shape `(height, width, 3)`,
entry `[i, j, c]` = channel `c` of the pixel at row `i`, column `j`. -/
def npArrayOfImage (img : PILImg) : NDTensor :=
  { shape := [img.height, img.width, 3]
    data := fun idx =>
      match idx with
      | [i, j, c] =>
        if h : c < 3 then img.px j i ⟨c, h⟩ else 0
      | _ => 0 }

/-- `np.expand_dims(arr, axis=0)`. -/
def expandDims0 (t : NDTensor) : NDTensor :=
  { shape := 1 :: t.shape
    data := fun idx =>
      match idx with
      | _ :: rest => t.data rest
      | [] => 0 }

/-- The per-channel ImageNet means `[103.939, 116.779, 123.68]` (indexed
by the output BGR channel) of `tf.keras.applications.vgg16.preprocess_input`
in `caffe` mode, as quoted in the comment at `utils/image_utils.py`
lines 77-79. -/
def imagenetMean (c : ℕ) : ℚ :=
  if c = 0 then 103939 / 1000
  else if c = 1 then 116779 / 1000
  else 12368 / 100

/-- `preprocess_input = tf.keras.applications.vgg16.preprocess_input`
(`utils/image_utils.py` line 11), applied to a 4-D `(batch, row, col,
channel)` array in its default `caffe` mode: flip the channel axis
RGB→BGR (`x = x[..., ::-1]`) and subtract the per-channel ImageNet mean.
The function body is Keras library code; this definition transcribes
that documented transform. -/
def preprocess_input (t : NDTensor) : NDTensor :=
  { shape := t.shape
    data := fun idx =>
      match idx with
      | [b, i, j, c] =>
        if c < 3 then t.data [b, i, j, 2 - c] - imagenetMean c else 0
      | _ => 0 }

/-- Lines 62-63 of `utils/image_utils.py`:
`if image.mode != 'RGB': image = image.convert('RGB')`. -/
def toRGB (image : PILImg) : PILImg :=
  if image.mode ≠ "RGB" then image.convertRGB else image

/-- `preprocess_image(uploaded_file)` from `utils/image_utils.py`.  The
`Image.open` decode step is external; its outcome is the `decoded`
argument, with `none` standing for a raised decode error, which the
`except` clause turns into `(None, None)`.  On success the function
returns the preprocessed 4-D array and the original (RGB-converted,
pre-resize) image, exactly as the source does. -/
def preprocess_image (resample : ResampleKernel) (decoded : Option PILImg) :
    Option (NDTensor × PILImg) :=
  match decoded with
  | none => none
  | some image0 =>
    let image := toRGB image0
    let original_image := image
    let resized := PILImg.resizeWith resample image IMAGE_SIZE
    let image_array := npArrayOfImage resized
    let batched := expandDims0 image_array
    let preprocessed := preprocess_input batched
    some (preprocessed, original_image)

/-! ## UI components (`components/ui_components.py`, `components/sidebar.py`) -/

/-- The settings dict returned by `render_sidebar` in
`components/sidebar.py` (lines 255-261). -/
structure Settings where
  confidence_threshold : ℚ
  show_probabilities : Bool
  show_image_info : Bool
  show_processing_steps : Bool
  theme : String
deriving DecidableEq, Repr

/-- The session statistics kept in `st.session_state`
(`components/sidebar.py` lines 224-229). -/
structure SessionCounters where
  predictions_made : ℕ
  cats_detected : ℕ
  dogs_detected : ℕ
deriving DecidableEq, Repr

/-- `render_image_display(uploaded_file, settings)` from
`components/ui_components.py` (lines 131-200), instrumented with whether
a decode/preprocess attempt was made: validation failure returns
`(None, None)` before `preprocess_image` runs; otherwise
`preprocess_image` is called (the decode attempt).  The returned pair is
the source's `(processed_image, original_image)`. -/
def render_image_display (resample : ResampleKernel)
    (uploaded_file : Option UploadedFile) (decoded : Option PILImg) :
    Option (NDTensor × PILImg) × Bool :=
  if ¬ validate_image uploaded_file then
    (none, false)
  else
    match preprocess_image resample decoded with
    | none => (none, true)
    | some p => (some p, true)

/-- The two visual treatments `render_prediction_results` chooses from
(`components/ui_components.py` lines 354-424): the celebratory card when
`confidence >= settings['confidence_threshold']`, the orange
"Uncertain Prediction" card otherwise. -/
inductive ResultStyle where
  | reliable
  | uncertain
deriving DecidableEq, Repr

/-- What `render_prediction_results` displays for a prediction: the
label and confidence shown (always those of the result dict) and the
style picked by the threshold comparison. -/
structure ResultsDisplay where
  shownLabel : Label
  shownConfidence : ℚ
  style : ResultStyle
deriving DecidableEq, Repr

/-- `render_prediction_results(results, settings)` from
`components/ui_components.py` (lines 316-428) as a function of the
session counters: `None` results return early after an error message;
otherwise the counters are updated (lines 328-333) and the result card
rendered. -/
def render_prediction_results (results : Option PredictionResult)
    (settings : Settings) (c : SessionCounters) :
    SessionCounters × Option ResultsDisplay :=
  match results with
  | none => (c, none)
  | some r =>
    let c' : SessionCounters :=
      { predictions_made := c.predictions_made + 1
        cats_detected :=
          if r.predicted_class = .Cat then c.cats_detected + 1
          else c.cats_detected
        dogs_detected :=
          if r.predicted_class = .Cat then c.dogs_detected
          else c.dogs_detected + 1 }
    (c', some { shownLabel := r.predicted_class
                shownConfidence := r.confidence
                style :=
                  if r.confidence ≥ settings.confidence_threshold then
                    .reliable
                  else .uncertain })

/-! ## Model loading and the main flow (`utils/model_utils.py`, `app.py`) -/

/-- Failure modes of the externals used inside `load_model`'s `try`
block. -/
inductive LoadError where
  | downloadFailed
  | loadFileFailed
deriving DecidableEq, Repr

/-- `load_model()` from `utils/model_utils.py` (lines 16-44).
`localPresent` is `os.path.exists(model_path)`; `download` is the
outcome of `gdown.download`; `loadFile` the outcome of
`keras.models.load_model`.  Any exception in the `try` block is caught
and turned into `None`. -/
def load_model (localPresent : Bool) (download : Except LoadError Unit)
    (loadFile : Except LoadError Model) : Option Model :=
  let attempt : Except LoadError Model := do
    if localPresent then pure () else download
    loadFile
  match attempt with
  | .ok m => some m
  | .error _ => none

/-- The Python exception raised by the post-prediction block of `main`. -/
inductive PyError where
  /-- `TypeError: 'NoneType' object is not subscriptable` -/
  | typeError
deriving DecidableEq, Repr

/-- What the post-prediction block of `main` produces when it does not
raise. -/
structure PostPredictOutcome where
  counters : SessionCounters
  display : Option ResultsDisplay
  balloons : Bool
  /-- the stray `st.error("❌ Failed to make prediction. ...")` shown when
  the threshold comparison is false -/
  failureErrorShown : Bool
deriving DecidableEq, Repr

/-- `app.py` lines 118-126, exactly as indented in the source: first
`if results: render_prediction_results(results, settings)`; then,
unconditionally, `if results['confidence'] >= settings['confidence_threshold']`
— which subscripts `results` even when it is `None`, raising a
`TypeError` — with `st.balloons()` on the true branch and
`st.error("❌ Failed to make prediction. Please try again.")` on the
false branch. -/
def main_after_predict (results : Option PredictionResult)
    (settings : Settings) (c : SessionCounters) :
    Except PyError PostPredictOutcome :=
  let step :=
    match results with
    | some _ => render_prediction_results results settings c
    | none => (c, none)
  match results with
  | none => .error .typeError
  | some r =>
    if r.confidence ≥ settings.confidence_threshold then
      .ok { counters := step.1, display := step.2
            balloons := true, failureErrorShown := false }
    else
      .ok { counters := step.1, display := step.2
            balloons := false, failureErrorShown := true }

/-- The persistent `st.session_state` fields used by `main`
(`app.py` lines 72-76) together with the counters initialised by the
sidebar. -/
structure AppSession where
  model : Option Model
  model_loaded : Bool
  counters : SessionCounters

/-- Observable trace of one run of `main()` (`app.py` lines 69-160):
the session state afterwards, whether `st.stop()` was reached, whether
the load-failure error was shown, whether a decode/preprocess attempt
ran, whether `predict_image` was called and what it computed, what was
displayed, and whether a `TypeError` escaped `main`. -/
structure RunTrace where
  finalState : AppSession
  stopped : Bool
  loadErrorShown : Bool
  decodeAttempted : Bool
  predictCalled : Bool
  results : Option PredictionResult
  display : Option ResultsDisplay
  balloons : Bool
  uncaught : Option PyError

/-- One Streamlit rerun of `main()` from `app.py`.  External inputs of
the run: `loader` is what `load_model()` would return, `uploaded_file`
the upload widget's value, `decoded` the outcome of `Image.open` on that
file, `settings` the sidebar widget values, `clicked` the predict
button.  Follows the source line by line: load-on-first-run with
`st.stop()` on failure (lines 79-88), the model-availability guard
(lines 97-99), upload handling and image display (lines 104-110), and
the prediction block (lines 112-126) via `main_after_predict`. -/
def main_run (s : AppSession) (loader : Option Model)
    (resample : ResampleKernel) (uploaded_file : Option UploadedFile)
    (decoded : Option PILImg) (settings : Settings) (clicked : Bool) :
    RunTrace :=
  let s1 : AppSession :=
    if ¬ s.model_loaded then
      { s with model := loader, model_loaded := true }
    else s
  let loadFailedNow := !s.model_loaded && s1.model.isNone
  if loadFailedNow then
    { finalState := s1, stopped := true, loadErrorShown := true
      decodeAttempted := false, predictCalled := false, results := none
      display := none, balloons := false, uncaught := none }
  else if s1.model.isNone then
    { finalState := s1, stopped := true, loadErrorShown := false
      decodeAttempted := false, predictCalled := false, results := none
      display := none, balloons := false, uncaught := none }
  else
    match uploaded_file with
    | none =>
      { finalState := s1, stopped := false, loadErrorShown := false
        decodeAttempted := false, predictCalled := false, results := none
        display := none, balloons := false, uncaught := none }
    | some f =>
      let disp := render_image_display resample (some f) decoded
      match disp.1 with
      | none =>
        { finalState := s1, stopped := false, loadErrorShown := false
          decodeAttempted := disp.2, predictCalled := false
          results := none, display := none, balloons := false
          uncaught := none }
      | some (processed_image, _original) =>
        if ¬ clicked then
          { finalState := s1, stopped := false, loadErrorShown := false
            decodeAttempted := disp.2, predictCalled := false
            results := none, display := none, balloons := false
            uncaught := none }
        else
          let results := predict_image s1.model processed_image
          match main_after_predict results settings s1.counters with
          | .error e =>
            { finalState := s1, stopped := false, loadErrorShown := false
              decodeAttempted := disp.2, predictCalled := true
              results := results, display := none, balloons := false
              uncaught := some e }
          | .ok out =>
            { finalState := { s1 with counters := out.counters }
              stopped := false, loadErrorShown := false
              decodeAttempted := disp.2, predictCalled := true
              results := results, display := out.display
              balloons := out.balloons, uncaught := none }

/-- The counter update performed by `render_prediction_results`
(lines 328-333), extracted for reasoning. -/
def updateCounters (r : PredictionResult) (c : SessionCounters) :
    SessionCounters :=
  { predictions_made := c.predictions_made + 1
    cats_detected :=
      if r.predicted_class = .Cat then c.cats_detected + 1
      else c.cats_detected
    dogs_detected :=
      if r.predicted_class = .Cat then c.dogs_detected
      else c.dogs_detected + 1 }

/-- The prediction `main_run` computes, as a function of the inputs that
can influence it: neither the sidebar settings nor the session counters
appear. -/
def runResults (s : AppSession) (loader : Option Model)
    (resample : ResampleKernel) (uploaded_file : Option UploadedFile)
    (decoded : Option PILImg) (clicked : Bool) : Option PredictionResult :=
  let s1 : AppSession :=
    if ¬ s.model_loaded then
      { s with model := loader, model_loaded := true }
    else s
  if !s.model_loaded && s1.model.isNone then none
  else if s1.model.isNone then none
  else
    match uploaded_file with
    | none => none
    | some f =>
      match (render_image_display resample (some f) decoded).1 with
      | none => none
      | some (processed_image, _) =>
        if ¬ clicked then none
        else predict_image s1.model processed_image

/-! ## Claims -/

/-! ### Helper lemmas -/

theorem render_counters_eq (r : PredictionResult) (settings : Settings)
    (c : SessionCounters) :
    (render_prediction_results (some r) settings c).1 = updateCounters r c :=
  rfl

theorem main_run_results_eq (s : AppSession) (loader : Option Model)
    (resample : ResampleKernel) (up : Option UploadedFile)
    (dec : Option PILImg) (settings : Settings) (clicked : Bool) :
    (main_run s loader resample up dec settings clicked).results
      = runResults s loader resample up dec clicked := by
  simp only [main_run, runResults]
  repeat' split <;> try rfl

theorem main_after_predict_error_imp (results : Option PredictionResult)
    (settings : Settings) (c : SessionCounters) (e : PyError)
    (h : main_after_predict results settings c = .error e) :
    results = none := by
  cases results with
  | none => rfl
  | some r =>
    simp only [main_after_predict] at h
    split at h <;> cases h

theorem main_after_predict_some_parts (r : PredictionResult)
    (settings : Settings) (c : SessionCounters) (out : PostPredictOutcome)
    (h : main_after_predict (some r) settings c = .ok out) :
    out.counters = updateCounters r c ∧
    out.display = some { shownLabel := r.predicted_class
                         shownConfidence := r.confidence
                         style :=
                           if r.confidence ≥ settings.confidence_threshold
                           then .reliable else .uncertain } := by
  simp only [main_after_predict, render_prediction_results] at h
  by_cases hth : r.confidence ≥ settings.confidence_threshold
  · rw [if_pos hth] at h
    cases h
    exact ⟨rfl, by simp [hth, updateCounters]⟩
  · rw [if_neg hth] at h
    cases h
    exact ⟨rfl, by simp [hth, updateCounters]⟩

theorem after_ok_display (results : Option PredictionResult)
    (settings : Settings) (c : SessionCounters) (out : PostPredictOutcome)
    (heq : main_after_predict results settings c = .ok out) :
    out.display.map (fun d => (d.shownLabel, d.shownConfidence))
      = results.map (fun r => (r.predicted_class, r.confidence)) := by
  cases results with
  | none => cases heq
  | some r =>
    rw [(main_after_predict_some_parts r settings c out heq).2]
    rfl

theorem after_ok_counters (results : Option PredictionResult)
    (settings : Settings) (c : SessionCounters) (out : PostPredictOutcome)
    (heq : main_after_predict results settings c = .ok out) :
    out.counters = (results.map (fun r => updateCounters r c)).getD c := by
  cases results with
  | none => cases heq
  | some r =>
    simpa using (main_after_predict_some_parts r settings c out heq).1

theorem main_run_display_eq (s : AppSession) (loader : Option Model)
    (resample : ResampleKernel) (up : Option UploadedFile)
    (dec : Option PILImg) (settings : Settings) (clicked : Bool) :
    (main_run s loader resample up dec settings clicked).display.map
        (fun d => (d.shownLabel, d.shownConfidence))
      = (main_run s loader resample up dec settings clicked).results.map
        (fun r => (r.predicted_class, r.confidence)) := by
  simp only [main_run]
  repeat' split <;> try rfl
  all_goals
    first
      | (rename_i e heq
         rw [main_after_predict_error_imp _ _ _ _ heq]
         rfl)
      | (rename_i out heq
         exact after_ok_display _ _ _ _ heq)

theorem main_run_counters_settings_indep (s : AppSession)
    (loader : Option Model) (resample : ResampleKernel)
    (up : Option UploadedFile) (dec : Option PILImg)
    (set1 set2 : Settings) (clicked : Bool) :
    (main_run s loader resample up dec set1 clicked).finalState.counters
      = (main_run s loader resample up dec set2 clicked).finalState.counters
      := by
  simp only [main_run]
  repeat' split <;> try rfl
  all_goals
    first
      | (rename_i x1 e1 h1 x2 out2 h2
         exact absurd h2
           (by rw [main_after_predict_error_imp _ _ _ _ h1]
               simp [main_after_predict]))
      | (rename_i x1 out1 h1 x2 e2 h2
         exact absurd h1
           (by rw [main_after_predict_error_imp _ _ _ _ h2]
               simp [main_after_predict]))
      | (rename_i x1 out1 h1 x2 out2 h2
         exact (after_ok_counters _ _ _ _ h1).trans
           (after_ok_counters _ _ _ _ h2).symm)

/-! ### Claim theorems -/

/-- C1 (counterexample): the claim "predict_image returns label Cat iff
the dog probability p < 0.5" fails at the valid probability pair
(0.5, 0.5): the code compares `dog_prob > cat_prob`, so the tie
p = 0.5 yields label Cat even though p < 0.5 is false. -/
theorem C1_counterexample :
    ¬ (∀ r, interpretRow [1 - (1 : ℚ)/2, (1 : ℚ)/2] = some r →
        (r.predicted_class = Label.Cat ↔ (1 : ℚ)/2 < 1/2)) := by
  intro h
  have hres : interpretRow [1 - (1 : ℚ)/2, (1 : ℚ)/2]
      = some { predicted_class := Label.Cat, confidence := 1/2
               cat_probability := 1/2, dog_probability := 1/2 } := by
    norm_num [interpretRow]
  have h2 := h _ hres
  exact absurd (h2.mp rfl) (lt_irrefl _)

/-- C1 (amended): for every probability pair (1-p, p) with p the dog
probability, `predict_image`'s interpretation returns label Dog iff
p > 0.5, label Cat iff p ≤ 0.5 (ties go to Cat), and confidence
max(p, 1-p). -/
theorem C1_amended (p : ℚ) :
    ∃ r, interpretRow [1 - p, p] = some r ∧
      (r.predicted_class = Label.Dog ↔ 1/2 < p) ∧
      (r.predicted_class = Label.Cat ↔ p ≤ 1/2) ∧
      r.confidence = max p (1 - p) := by
  refine ⟨_, rfl, ?_, ?_, ?_⟩
  · by_cases h : p > 1 - p
    · simp only [interpretRow, if_pos h]
      constructor
      · intro _; linarith
      · intro _; trivial
    · simp only [interpretRow, if_neg h]
      constructor
      · intro hc; cases hc
      · intro hp; exfalso; apply h; linarith
  · by_cases h : p > 1 - p
    · simp only [interpretRow, if_pos h]
      constructor
      · intro hc; cases hc
      · intro hp; exfalso; linarith
    · simp only [interpretRow, if_neg h]
      constructor
      · intro _; linarith
      · intro _; trivial
  · simp only [interpretRow]
    exact max_comm _ _

/-- C2: an upload whose extension is outside {jpg, jpeg, png, bmp} or
whose size exceeds 10 MiB is rejected by `validate_image` with an error
reported, and `render_image_display` then returns without any
decode/preprocess attempt; in particular a 10.5 MiB (11010048-byte) jpg
is rejected with the size error and never decoded. -/
theorem C2_invalid_or_oversized_rejected (f : UploadedFile)
    (h : fileExtension f.name ∉ ALLOWED_EXTENSIONS ∨ MAX_FILE_SIZE < f.size) :
    validate_image (some f) = false ∧
    (validate_image_r (some f)).2.isSome = true ∧
    (∀ (resample : ResampleKernel) (decoded : Option PILImg),
      render_image_display resample (some f) decoded = (none, false)) ∧
    (validate_image_r (some { name := "photo.jpg", size := 11010048 })).2
      = some ValidationError.fileTooLarge ∧
    (∀ (resample : ResampleKernel) (decoded : Option PILImg),
      render_image_display resample
        (some { name := "photo.jpg", size := 11010048 }) decoded
      = (none, false)) := by
  have hv : validate_image_r (some f) = (false, some .unsupportedFormat) ∨
      validate_image_r (some f) = (false, some .fileTooLarge) := by
    by_cases he : fileExtension f.name ∈ ALLOWED_EXTENSIONS
    · rcases h with h | h
      · exact absurd he h
      · right
        simp [validate_image_r, he, h]
    · left
      simp [validate_image_r, he]
  have hvb : validate_image (some f) = false := by
    rcases hv with hv | hv <;> simp [validate_image, hv]
  have hvbig : validate_image (some { name := "photo.jpg", size := 11010048 })
      = false := by decide
  refine ⟨hvb, ?_, ?_, ?_, ?_⟩
  · rcases hv with hv | hv <;> simp [hv]
  · intro resample decoded
    simp [render_image_display, hvb]
  · decide
  · intro resample decoded
    simp [render_image_display, hvbig]

/-- C2 witness: a 10.5 MiB jpg upload satisfies the size-violation
hypothesis and is rejected without a decode attempt. -/
theorem C2_witness :
    (fileExtension "photo.jpg" ∉ ALLOWED_EXTENSIONS ∨
      MAX_FILE_SIZE < 11010048) ∧
    validate_image (some { name := "photo.jpg", size := 11010048 })
      = false :=
  ⟨Or.inr (by decide),
    (C2_invalid_or_oversized_rejected { name := "photo.jpg", size := 11010048 }
      (Or.inr (by decide))).1⟩

/-- C3: for every decoded image (any mode, any dimensions) and any
resampling kernel, `preprocess_image` produces a tensor of shape
1 × 224 × 224 × 3. -/
theorem C3_preprocessed_shape (resample : ResampleKernel) (img : PILImg) :
    (preprocess_image resample (some img)).map (fun p => p.1.shape)
      = some [1, 224, 224, 3] := by
  simp [preprocess_image, preprocess_input, expandDims0, npArrayOfImage,
    PILImg.resizeWith, IMAGE_SIZE]

/-- C7: for every successful prediction the per-class probabilities sum
to 1: exactly in the sigmoid branch (cat_prob = 1 - prob), and in the
two-element branch under the precondition that the model output row is a
probability distribution (p0 + p1 = 1). -/
theorem C7_probabilities_sum_to_one :
    (∀ p : ℚ, (interpretRow [p]).map
        (fun r => r.all_probabilities .Cat + r.all_probabilities .Dog)
      = some 1) ∧
    (∀ (p0 p1 : ℚ) (rest : List ℚ), p0 + p1 = 1 →
      (interpretRow (p0 :: p1 :: rest)).map
        (fun r => r.all_probabilities .Cat + r.all_probabilities .Dog)
      = some 1) := by
  constructor
  · intro p
    simp [interpretRow, PredictionResult.all_probabilities]
  · intro p0 p1 rest h
    cases rest <;>
      simp [interpretRow, PredictionResult.all_probabilities, h]

/-- C7 witness at the concrete distribution (0.3, 0.7). -/
theorem C7_witness :
    (interpretRow [(3 : ℚ)/10, 7/10]).map
        (fun r => r.all_probabilities .Cat + r.all_probabilities .Dog)
      = some 1 :=
  C7_probabilities_sum_to_one.2 (3/10) (7/10) [] (by norm_num)

/-- C8: over a complementary probability pair (sigmoid output p, or an
explicit pair (1-p, p)) with 0 ≤ p ≤ 1, the returned result has label in
{Cat, Dog} and confidence in [1/2, 1]. -/
theorem C8_label_and_confidence_bounds (p : ℚ) (h0 : 0 ≤ p) (h1 : p ≤ 1) :
    (∃ r, interpretRow [p] = some r ∧
      (r.predicted_class = Label.Cat ∨ r.predicted_class = Label.Dog) ∧
      1/2 ≤ r.confidence ∧ r.confidence ≤ 1) ∧
    (∃ r, interpretRow [1 - p, p] = some r ∧
      (r.predicted_class = Label.Cat ∨ r.predicted_class = Label.Dog) ∧
      1/2 ≤ r.confidence ∧ r.confidence ≤ 1) := by
  have hlab : ∀ a b : ℚ,
      (if b > a then Label.Dog else Label.Cat) = Label.Cat ∨
      (if b > a then Label.Dog else Label.Cat) = Label.Dog := by
    intro a b
    by_cases h : b > a <;> simp [h]
  have hmax : 1/2 ≤ max (1 - p) p := by
    rcases le_or_lt p (1/2) with h | h
    · exact le_max_of_le_left (by linarith)
    · exact le_max_of_le_right (by linarith)
  have hmax1 : max (1 - p) p ≤ 1 := max_le (by linarith) h1
  constructor
  · exact ⟨_, rfl, hlab _ _, hmax, hmax1⟩
  · exact ⟨_, rfl, hlab _ _, hmax, hmax1⟩

/-- C8 witness at the concrete sigmoid output p = 0.7. -/
theorem C8_witness :
    (0 : ℚ) ≤ 7/10 ∧ ((7 : ℚ)/10 ≤ 1) ∧
    (∃ r, interpretRow [(7 : ℚ)/10] = some r ∧
      (r.predicted_class = Label.Cat ∨ r.predicted_class = Label.Dog) ∧
      1/2 ≤ r.confidence ∧ r.confidence ≤ 1) :=
  ⟨by norm_num, by norm_num,
    (C8_label_and_confidence_bounds (7/10) (by norm_num) (by norm_num)).1⟩

/-- C9: every entry of the preprocessed tensor is the resized image's
pixel with the channel order flipped RGB→BGR and the VGG16 ImageNet mean
for that BGR channel subtracted: channel 0 = B − 103.939,
channel 1 = G − 116.779, channel 2 = R − 123.68. -/
theorem C9_bgr_mean_subtraction (resample : ResampleKernel) (img : PILImg)
    (b i j c : ℕ) (hc : c < 3) :
    (preprocess_image resample (some img)).map (fun p => p.1.data [b, i, j, c])
      = some (resample (toRGB img) IMAGE_SIZE j i ⟨2 - c, by omega⟩
          - imagenetMean c) := by
  have h2 : 2 - c < 3 := by omega
  simp [preprocess_image, preprocess_input, expandDims0, npArrayOfImage,
    PILImg.resizeWith, hc, h2]

/-- C9 witness at a concrete channel index (c = 0, the blue channel)
of an all-gray 2×2 source image under a constant resampling kernel. -/
theorem C9_witness :
    (0 : ℕ) < 3 ∧
    (preprocess_image (fun _ _ _ _ _ => 100)
        (some { mode := "RGB", width := 2, height := 2
                px := fun _ _ _ => 100 })).map
      (fun p => p.1.data [0, 0, 0, 0])
      = some (100 - 103939 / 1000) := by
  refine ⟨by norm_num, ?_⟩
  have h := C9_bgr_mean_subtraction (fun _ _ _ _ _ => 100)
    { mode := "RGB", width := 2, height := 2, px := fun _ _ _ => 100 }
    0 0 0 0 (by norm_num)
  rw [h]
  norm_num [imagenetMean]

/-- C4 (bug evidence): when `predict_image` returns `None`, the
post-prediction block of `main` (`app.py` lines 118-126) subscripts
`results['confidence']` anyway — the threshold comparison is indented at
the same level as `if results:` — so a `TypeError` escapes `main`
instead of the graceful `st.error` report. -/
theorem C4_none_result_raises_typeerror (settings : Settings)
    (c : SessionCounters) :
    main_after_predict none settings c = .error .typeError :=
  rfl

/-- C5: when the local artifact is absent and the remote fetch fails,
`load_model` returns `None` rather than raising; the first `main` run
then shows the load error and stops, and every subsequent rerun (the
session keeps `model = None`, `model_loaded = True`) also stops before
any upload handling, so no classify call is ever made until restart. -/
theorem C5_load_failure_refuses_interaction (e : LoadError)
    (lf : Except LoadError Model) (c : SessionCounters)
    (resample : ResampleKernel) (up : Option UploadedFile)
    (dec : Option PILImg) (settings : Settings) (clicked : Bool) :
    load_model false (.error e) lf = none ∧
    (let t := main_run { model := none, model_loaded := false, counters := c }
        (load_model false (.error e) lf) resample up dec settings clicked
     t.stopped = true ∧ t.loadErrorShown = true ∧ t.predictCalled = false ∧
     t.finalState.model = none ∧ t.finalState.model_loaded = true) ∧
    (∀ (s : AppSession) (loader : Option Model),
      s.model = none → s.model_loaded = true →
      (main_run s loader resample up dec settings clicked).stopped = true ∧
      (main_run s loader resample up dec settings clicked).predictCalled
        = false ∧
      (main_run s loader resample up dec settings clicked).finalState.model
        = none ∧
      (main_run s loader resample up dec settings
        clicked).finalState.model_loaded = true) := by
  refine ⟨rfl, ⟨rfl, rfl, rfl, rfl, rfl⟩, ?_⟩
  intro s loader hm hl
  simp [main_run, hm, hl]

/-- C5 witness: with both the download and the file load failing
concretely, the load returns `None` and a rerun of a session holding
`model = None` stops without calling predict. -/
theorem C5_witness :
    load_model false (.error .downloadFailed) (.error .loadFileFailed)
      = none ∧
    (AppSession.mk none true ⟨0, 0, 0⟩).model = none ∧
    (AppSession.mk none true ⟨0, 0, 0⟩).model_loaded = true ∧
    (main_run (AppSession.mk none true ⟨0, 0, 0⟩) none
        (fun _ _ _ _ _ => 0) none none
        ⟨4/5, true, false, true, "Dark"⟩ false).stopped = true ∧
    (main_run (AppSession.mk none true ⟨0, 0, 0⟩) none
        (fun _ _ _ _ _ => 0) none none
        ⟨4/5, true, false, true, "Dark"⟩ false).predictCalled = false := by
  have h := C5_load_failure_refuses_interaction .downloadFailed
    (.error .loadFileFailed) ⟨0, 0, 0⟩ (fun _ _ _ _ _ => 0) none none
    ⟨4/5, true, false, true, "Dark"⟩ false
  have h3 := h.2.2 (AppSession.mk none true ⟨0, 0, 0⟩) none rfl rfl
  exact ⟨h.1, rfl, rfl, h3.1, h3.2.1⟩

/-- C6: two runs that differ only in the configured confidence threshold
compute the same prediction, leave the same session counters, and
display the same label and confidence; the threshold changes at most the
reliable/uncertain styling. -/
theorem C6_threshold_noninterference (s : AppSession)
    (loader : Option Model) (resample : ResampleKernel)
    (up : Option UploadedFile) (dec : Option PILImg) (base : Settings)
    (t1 t2 : ℚ) (clicked : Bool) :
    (main_run s loader resample up dec
        { base with confidence_threshold := t1 } clicked).results
      = (main_run s loader resample up dec
        { base with confidence_threshold := t2 } clicked).results ∧
    (main_run s loader resample up dec
        { base with confidence_threshold := t1 }
        clicked).finalState.counters
      = (main_run s loader resample up dec
        { base with confidence_threshold := t2 }
        clicked).finalState.counters ∧
    (main_run s loader resample up dec
        { base with confidence_threshold := t1 } clicked).display.map
        (fun d => (d.shownLabel, d.shownConfidence))
      = (main_run s loader resample up dec
        { base with confidence_threshold := t2 } clicked).display.map
        (fun d => (d.shownLabel, d.shownConfidence)) := by
  refine ⟨?_, ?_, ?_⟩
  · rw [main_run_results_eq, main_run_results_eq]
  · exact main_run_counters_settings_indep s loader resample up dec _ _
      clicked
  · rw [main_run_display_eq, main_run_display_eq,
      main_run_results_eq, main_run_results_eq]

/-- C10: a completed prediction bumps `predictions_made` by one and
exactly one of `cats_detected`/`dogs_detected` according to the label,
preserving `predictions_made = cats_detected + dogs_detected`; and the
inference path never reads the counters — the computed result is
invariant under the session counter values. -/
theorem C10_session_counter_invariant (r : PredictionResult)
    (settings : Settings) (c : SessionCounters)
    (hinv : c.predictions_made = c.cats_detected + c.dogs_detected) :
    ((render_prediction_results (some r) settings c).1.predictions_made
        = c.predictions_made + 1 ∧
      ((r.predicted_class = Label.Cat ∧
        (render_prediction_results (some r) settings c).1.cats_detected
          = c.cats_detected + 1 ∧
        (render_prediction_results (some r) settings c).1.dogs_detected
          = c.dogs_detected) ∨
       (r.predicted_class = Label.Dog ∧
        (render_prediction_results (some r) settings c).1.dogs_detected
          = c.dogs_detected + 1 ∧
        (render_prediction_results (some r) settings c).1.cats_detected
          = c.cats_detected)) ∧
      (render_prediction_results (some r) settings c).1.predictions_made
        = (render_prediction_results (some r) settings c).1.cats_detected
          + (render_prediction_results (some r) settings c).1.dogs_detected)
    ∧
    (∀ (s : AppSession) (loader : Option Model) (resample : ResampleKernel)
       (up : Option UploadedFile) (dec : Option PILImg) (clicked : Bool)
       (c1 c2 : SessionCounters),
      (main_run { s with counters := c1 } loader resample up dec settings
          clicked).results
        = (main_run { s with counters := c2 } loader resample up dec settings
          clicked).results) := by
  constructor
  · cases hl : r.predicted_class with
    | Cat =>
      refine ⟨rfl, Or.inl ⟨rfl, ?_, ?_⟩, ?_⟩ <;>
        simp [render_prediction_results, hl, hinv]
      all_goals omega
    | Dog =>
      refine ⟨rfl, Or.inr ⟨rfl, ?_, ?_⟩, ?_⟩ <;>
        simp [render_prediction_results, hl, hinv]
      all_goals omega
  · intro s loader resample up dec clicked c1 c2
    rw [main_run_results_eq, main_run_results_eq]
    simp only [runResults, apply_ite AppSession.model]

/-- C10 witness: a concrete Cat prediction on fresh counters keeps the
invariant and the result is counter-independent. -/
theorem C10_witness :
    (0 : ℕ) = 0 + 0 ∧
    ((render_prediction_results
        (some ⟨Label.Cat, 9/10, 9/10, 1/10⟩)
        ⟨4/5, true, false, true, "Dark"⟩ ⟨0, 0, 0⟩).1.predictions_made
      = 0 + 1) := by
  have h := C10_session_counter_invariant ⟨Label.Cat, 9/10, 9/10, 1/10⟩
    ⟨4/5, true, false, true, "Dark"⟩ ⟨0, 0, 0⟩ rfl
  exact ⟨rfl, h.1.1⟩

end VGG16App
